import Mathlib

/-!
Shallow embedding of the tenant-scoped authorization and plan-limit logic of
the ADMG backend (src/app/backend/src/index.ts).  Persistence is modelled as
explicit lists inside a `DB` record; each Express handler becomes a pure
function from its (already string-coerced) inputs and the current `DB` to a
result together with the next `DB`.  Nullable columns become `Option String`;
JavaScript truthiness of a nullable string (null / undefined / "" are falsy)
is `truthyOpt`.  Cryptographic primitives (sha256 token hashing, password
verification) and the numeric/date parsers are opaque in the source's design
and are taken as function parameters.
-/

namespace ADMG

/-- Roles of a Usuario, from the Prisma enum Role. -/
inductive Role where
  | ADMINISTRADORA
  | OPERADOR
  | SINDICO
deriving DecidableEq, Repr

/-- Subscription plans, from the Prisma enum Plano. -/
inductive Plano where
  | FREEMIUM
  | ESSENCIAL
  | PROFISSIONAL
  | ESCALA
deriving DecidableEq, Repr

/-- Auth providers, from the Prisma enum AuthProvider. -/
inductive AuthProvider where
  | LOCAL
  | GOOGLE
deriving DecidableEq, Repr

/-- The authenticated identity carried on req.user (the JWT payload signed at
login: id, role, administradoraId, condominioId). -/
structure AuthUser where
  id : String
  role : Role
  administradoraId : Option String
  condominioId : Option String
deriving DecidableEq, Repr

/-- A row of the Usuario table (the fields the modelled handlers touch). -/
structure Usuario where
  id : String
  nome : String
  email : String
  senhaHash : String
  role : Role
  administradoraId : Option String
  condominioId : Option String
  plano : Plano
  authProvider : AuthProvider
  emailVerificado : Bool
  emailVerificationToken : Option String
  emailVerificationExpires : Option Nat
deriving DecidableEq, Repr

/-- A row of the Condominio table. -/
structure Condominio where
  id : String
  nome : String
  cnpj : Option String
  endereco : Option String
  administradoraId : Option String
deriving DecidableEq, Repr

/-- A row of the Unidade table. -/
structure Unidade where
  id : String
  identificador : String
  tipo : Option String
  condominioId : String
deriving DecidableEq, Repr

/-- A row of the Morador table. -/
structure Morador where
  id : String
  nome : String
  documento : Option String
  contato : Option String
  unidadeId : String
deriving DecidableEq, Repr

/-- Kind of a financial entry, from the Prisma enum TipoLancamento. -/
inductive TipoLancamento where
  | RECEITA
  | DESPESA
deriving DecidableEq, Repr

/-- A row of the Lancamento table.  The decimal amount is kept as its
normalized string (the backend stores the value parseDecimalInput returns);
the date is epoch milliseconds. -/
structure Lancamento where
  id : String
  tipo : TipoLancamento
  valor : String
  data : Nat
  categoria : Option String
  descricao : Option String
  condominioId : String
deriving DecidableEq, Repr

/-- The persistent store: one list per table. -/
structure DB where
  usuarios : List Usuario
  condominios : List Condominio
  unidades : List Unidade
  moradores : List Morador
  lancamentos : List Lancamento
deriving DecidableEq, Repr

/-- The structured failure codes the handlers return. -/
inductive ApiError where
  | unauthorized
  | forbidden
  | nome_obrigatorio
  | limite_plano
  | nao_encontrado
  | condominio_obrigatorio
  | identificador_obrigatorio
  | unidade_obrigatoria
  | id_obrigatorio
  | nada_para_atualizar
  | tipo_invalido
  | valor_invalido
  | data_invalida
  | token_invalido
  | muitas_tentativas
  | credenciais_invalidas
  | email_nao_verificado
  | internal_error
deriving DecidableEq, Repr

/-- Outcome of a handler: a success payload or a structured error code. -/
inductive HResult (α : Type) where
  | ok (a : α)
  | err (e : ApiError)
deriving DecidableEq, Repr

/-- JavaScript truthiness of a nullable string: null/undefined and the empty
string are falsy, every other string is truthy. -/
def truthyOpt : Option String → Bool
  | none => false
  | some s => !(s == "")

/-- The JavaScript idiom x || null applied to a nullable string: an empty
string collapses to null. -/
def orNull : Option String → Option String
  | none => none
  | some s => if s == "" then none else some s

/-- Translation of isAdminOrOperator (index.ts lines 74-76):
user && (user.role === "ADMINISTRADORA" || user.role === "OPERADOR"). -/
def isAdminOrOperator : Option AuthUser → Bool
  | none => false
  | some u => u.role == Role.ADMINISTRADORA || u.role == Role.OPERADOR

/-- Translation of canAccessCondominio (index.ts lines 78-87).  The SINDICO
branch is the strict comparison user.condominioId === condominio.id (null
never equals a string); the other branch fires only when user.administradoraId
is truthy and then strictly compares the two nullable ids. -/
def canAccessCondominio (user : Option AuthUser) (c : Condominio) : Bool :=
  match user with
  | none => false
  | some u =>
    if u.role == Role.SINDICO then
      u.condominioId == some c.id
    else if truthyOpt u.administradoraId then
      c.administradoraId == u.administradoraId
    else
      false

/-- Point lookup of a Condominio by id (prisma.condominio.findUnique). -/
def findCondominio (db : DB) (id : String) : Option Condominio :=
  db.condominios.find? (fun c => c.id == id)

/-- Translation of getCondominioOrNull (index.ts lines 89-92). -/
def getCondominioOrNull (db : DB) (id : String) : Option Condominio :=
  if id == "" then none else findCondominio db id

/-- Point lookup of a Unidade by id (prisma.unidade.findUnique). -/
def findUnidade (db : DB) (id : String) : Option Unidade :=
  db.unidades.find? (fun v => v.id == id)

/-- Point lookup of a Morador by id (prisma.morador.findUnique). -/
def findMorador (db : DB) (id : String) : Option Morador :=
  db.moradores.find? (fun m => m.id == id)

/-- Point lookup of a Lancamento by id (prisma.lancamento.findUnique). -/
def findLancamento (db : DB) (id : String) : Option Lancamento :=
  db.lancamentos.find? (fun l => l.id == id)

/-- Point lookup of a Usuario by id (prisma.usuario.findUnique). -/
def findUsuario (db : DB) (id : String) : Option Usuario :=
  db.usuarios.find? (fun u => u.id == id)

/-- Count of Condominios owned by a given administradora id
(prisma.condominio.count where administradoraId). -/
def condoCountFor (db : DB) (aid : Option String) : Nat :=
  (db.condominios.filter (fun c => c.administradoraId == aid)).length

/-- Count of Unidades inside one Condominio (prisma.unidade.count where
condominioId). -/
def unidadeCountFor (db : DB) (condId : String) : Nat :=
  (db.unidades.filter (fun v => v.condominioId == condId)).length

/-- Translation of the POST /api/condominios handler (index.ts lines
750-794).  Inputs are the values after string coercion: nome is the trimmed
name, cnpj and endereco the trimmed optional fields, newId the id the store
assigns.  The plan gate fires only when the actor's stored plan is FREEMIUM
and its stored administradoraId is truthy and that tenant already owns at
least one Condominio. -/
def postCondominios (user : Option AuthUser) (nome : String)
    (cnpj endereco : Option String) (newId : String) (db : DB) :
    HResult Condominio × DB :=
  match user with
  | none => (.err .unauthorized, db)
  | some u =>
    if !(isAdminOrOperator (some u)) then (.err .forbidden, db)
    else if nome == "" then (.err .nome_obrigatorio, db)
    else
      let blocked :=
        match findUsuario db u.id with
        | some dbUser =>
          dbUser.plano == Plano.FREEMIUM && truthyOpt dbUser.administradoraId
            && decide (condoCountFor db dbUser.administradoraId ≥ 1)
        | none => false
      if blocked then (.err .limite_plano, db)
      else
        let item : Condominio :=
          { id := newId, nome := nome, cnpj := orNull cnpj,
            endereco := orNull endereco,
            administradoraId := orNull u.administradoraId }
        (.ok item, { db with condominios := item :: db.condominios })

/-- Translation of the GET /api/condominios/:condominioId/unidades handler
(index.ts lines 796-822).  The ordering and the take-100 pagination of the
returned list are dropped; the guards are kept verbatim. -/
def getUnidades (user : Option AuthUser) (condominioId : String) (db : DB) :
    HResult (List Unidade) × DB :=
  match user with
  | none => (.err .condominio_obrigatorio, db)
  | some _ =>
    if condominioId == "" then (.err .condominio_obrigatorio, db)
    else
      match getCondominioOrNull db condominioId with
      | none => (.err .nao_encontrado, db)
      | some cond =>
        if !(canAccessCondominio user cond) then (.err .forbidden, db)
        else
          (.ok (db.unidades.filter (fun v => v.condominioId == condominioId)), db)

/-- Translation of the POST /api/condominios/:condominioId/unidades handler
(index.ts lines 824-875).  The unit plan gate fires whenever the actor's
stored plan is FREEMIUM and the target Condominio already holds 15 or more
Unidades. -/
def postUnidades (user : Option AuthUser) (condominioId identificador : String)
    (tipo : Option String) (newId : String) (db : DB) :
    HResult Unidade × DB :=
  match user with
  | none => (.err .forbidden, db)
  | some u =>
    if !(isAdminOrOperator (some u)) then (.err .forbidden, db)
    else if condominioId == "" then (.err .condominio_obrigatorio, db)
    else if identificador == "" then (.err .identificador_obrigatorio, db)
    else
      match getCondominioOrNull db condominioId with
      | none => (.err .nao_encontrado, db)
      | some cond =>
        if !(canAccessCondominio (some u) cond) then (.err .forbidden, db)
        else
          let blocked :=
            match findUsuario db u.id with
            | some dbUser =>
              dbUser.plano == Plano.FREEMIUM
                && decide (unidadeCountFor db condominioId ≥ 15)
            | none => false
          if blocked then (.err .limite_plano, db)
          else
            let item : Unidade :=
              { id := newId, identificador := identificador,
                tipo := orNull tipo, condominioId := condominioId }
            (.ok item, { db with unidades := item :: db.unidades })

/-- Patch application for a Unidade row, mirroring the data object the PATCH
/api/unidades/:id handler builds: an absent field is left unchanged, a
present tipo collapses an empty string to null. -/
def applyUnidadePatch (v : Unidade) (identB tipoB : Option String) : Unidade :=
  { v with
    identificador := identB.getD v.identificador,
    tipo := match tipoB with
      | none => v.tipo
      | some t => if t == "" then none else some t }

/-- Translation of the PATCH /api/unidades/:id handler (index.ts lines
877-926).  A body field is `some s` when present with trimmed value s and
`none` when absent; the joined Condominio of the Unidade is looked up the way
the prisma include does (a dangling relation would make prisma throw, hence
internal_error). -/
def patchUnidades (user : Option AuthUser) (id : String)
    (identB tipoB : Option String) (db : DB) : HResult Unidade × DB :=
  if !(isAdminOrOperator user) then (.err .forbidden, db)
  else if id == "" then (.err .id_obrigatorio, db)
  else
    match findUnidade db id with
    | none => (.err .nao_encontrado, db)
    | some v =>
      match findCondominio db v.condominioId with
      | none => (.err .internal_error, db)
      | some cond =>
        if !(canAccessCondominio user cond) then (.err .forbidden, db)
        else if identB == some "" then (.err .identificador_obrigatorio, db)
        else if identB == none && tipoB == none then (.err .nada_para_atualizar, db)
        else
          let item := applyUnidadePatch v identB tipoB
          (.ok item,
           { db with unidades := db.unidades.map (fun w => if w.id == id then item else w) })

/-- Translation of the DELETE /api/unidades/:id handler (index.ts lines
928-957). -/
def deleteUnidades (user : Option AuthUser) (id : String) (db : DB) :
    HResult Unit × DB :=
  if !(isAdminOrOperator user) then (.err .forbidden, db)
  else if id == "" then (.err .id_obrigatorio, db)
  else
    match findUnidade db id with
    | none => (.err .nao_encontrado, db)
    | some v =>
      match findCondominio db v.condominioId with
      | none => (.err .internal_error, db)
      | some cond =>
        if !(canAccessCondominio user cond) then (.err .forbidden, db)
        else (.ok (), { db with unidades := db.unidades.filter (fun w => !(w.id == id)) })

/-- Translation of the POST /api/unidades/:unidadeId/moradores handler
(index.ts lines 990-1033). -/
def postMoradores (user : Option AuthUser) (unidadeId nome : String)
    (documento contato : Option String) (newId : String) (db : DB) :
    HResult Morador × DB :=
  if !(isAdminOrOperator user) then (.err .forbidden, db)
  else if unidadeId == "" then (.err .unidade_obrigatoria, db)
  else if nome == "" then (.err .nome_obrigatorio, db)
  else
    match findUnidade db unidadeId with
    | none => (.err .nao_encontrado, db)
    | some v =>
      match findCondominio db v.condominioId with
      | none => (.err .internal_error, db)
      | some cond =>
        if !(canAccessCondominio user cond) then (.err .forbidden, db)
        else
          let item : Morador :=
            { id := newId, nome := nome, documento := orNull documento,
              contato := orNull contato, unidadeId := unidadeId }
          (.ok item, { db with moradores := item :: db.moradores })

/-- Patch application for a Morador row, mirroring the data object the PATCH
/api/moradores/:id handler builds. -/
def applyMoradorPatch (m : Morador) (nomeB documentoB contatoB : Option String) :
    Morador :=
  { m with
    nome := nomeB.getD m.nome,
    documento := match documentoB with
      | none => m.documento
      | some s => if s == "" then none else some s,
    contato := match contatoB with
      | none => m.contato
      | some s => if s == "" then none else some s }

/-- Translation of the PATCH /api/moradores/:id handler (index.ts lines
1035-1088).  The joined Unidade and its Condominio are looked up the way the
nested prisma include does. -/
def patchMoradores (user : Option AuthUser) (id : String)
    (nomeB documentoB contatoB : Option String) (db : DB) :
    HResult Morador × DB :=
  if !(isAdminOrOperator user) then (.err .forbidden, db)
  else if id == "" then (.err .id_obrigatorio, db)
  else
    match findMorador db id with
    | none => (.err .nao_encontrado, db)
    | some m =>
      match findUnidade db m.unidadeId with
      | none => (.err .internal_error, db)
      | some v =>
        match findCondominio db v.condominioId with
        | none => (.err .internal_error, db)
        | some cond =>
          if !(canAccessCondominio user cond) then (.err .forbidden, db)
          else if nomeB == some "" then (.err .nome_obrigatorio, db)
          else if nomeB == none && documentoB == none && contatoB == none then
            (.err .nada_para_atualizar, db)
          else
            let item := applyMoradorPatch m nomeB documentoB contatoB
            (.ok item,
             { db with moradores := db.moradores.map (fun w => if w.id == id then item else w) })

/-- Translation of the DELETE /api/moradores/:id handler (index.ts lines
1090-1119). -/
def deleteMoradores (user : Option AuthUser) (id : String) (db : DB) :
    HResult Unit × DB :=
  if !(isAdminOrOperator user) then (.err .forbidden, db)
  else if id == "" then (.err .id_obrigatorio, db)
  else
    match findMorador db id with
    | none => (.err .nao_encontrado, db)
    | some m =>
      match findUnidade db m.unidadeId with
      | none => (.err .internal_error, db)
      | some v =>
        match findCondominio db v.condominioId with
        | none => (.err .internal_error, db)
        | some cond =>
          if !(canAccessCondominio user cond) then (.err .forbidden, db)
          else (.ok (), { db with moradores := db.moradores.filter (fun w => !(w.id == id)) })

/-- Parse of the tipo body field of a Lancamento after trim and upper-casing:
only the strings RECEITA and DESPESA are accepted. -/
def parseTipoLancamento (s : String) : Option TipoLancamento :=
  if s == "RECEITA" then some TipoLancamento.RECEITA
  else if s == "DESPESA" then some TipoLancamento.DESPESA
  else none

/-- Translation of the POST /api/condominios/:condominioId/lancamentos handler
(index.ts lines 1176-1226).  The decimal normalizer (parseDecimalInput, built
on the JavaScript Number parser) and the date parser (parseDateInput, built on
the JavaScript Date parser) are opaque collaborators passed as parseDec and
parseDate; a parse failure is their returning none. -/
def postLancamentos (parseDec : String → Option String)
    (parseDate : String → Option Nat) (user : Option AuthUser)
    (condominioId tipo : String) (valorB dataB : Option String)
    (categoria descricao : Option String) (newId : String) (db : DB) :
    HResult Lancamento × DB :=
  if !(isAdminOrOperator user) then (.err .forbidden, db)
  else if condominioId == "" then (.err .condominio_obrigatorio, db)
  else
    match parseTipoLancamento tipo with
    | none => (.err .tipo_invalido, db)
    | some tipoV =>
      match valorB.bind parseDec with
      | none => (.err .valor_invalido, db)
      | some valor =>
        match dataB.bind parseDate with
        | none => (.err .data_invalida, db)
        | some dataV =>
          match getCondominioOrNull db condominioId with
          | none => (.err .nao_encontrado, db)
          | some cond =>
            if !(canAccessCondominio user cond) then (.err .forbidden, db)
            else
              let item : Lancamento :=
                { id := newId, tipo := tipoV, valor := valor, data := dataV,
                  categoria := orNull categoria, descricao := orNull descricao,
                  condominioId := condominioId }
              (.ok item, { db with lancamentos := item :: db.lancamentos })

/-- Patch application for a Lancamento row, mirroring the data object the
PATCH /api/lancamentos/:id handler builds from already validated fields. -/
def applyLancamentoPatch (l : Lancamento) (tipoN : Option TipoLancamento)
    (valorN : Option String) (dataN : Option Nat)
    (categoriaB descricaoB : Option String) : Lancamento :=
  { l with
    tipo := tipoN.getD l.tipo,
    valor := valorN.getD l.valor,
    data := dataN.getD l.data,
    categoria := match categoriaB with
      | none => l.categoria
      | some s => if s == "" then none else some s,
    descricao := match descricaoB with
      | none => l.descricao
      | some s => if s == "" then none else some s }

/-- Translation of the PATCH /api/lancamentos/:id handler (index.ts lines
1228-1306).  Body validation happens after the lookup and the access guard,
in source order: tipo, then valor, then data. -/
def patchLancamentos (parseDec : String → Option String)
    (parseDate : String → Option Nat) (user : Option AuthUser) (id : String)
    (tipoB valorB dataB categoriaB descricaoB : Option String) (db : DB) :
    HResult Lancamento × DB :=
  if !(isAdminOrOperator user) then (.err .forbidden, db)
  else if id == "" then (.err .id_obrigatorio, db)
  else
    match findLancamento db id with
    | none => (.err .nao_encontrado, db)
    | some l =>
      match findCondominio db l.condominioId with
      | none => (.err .internal_error, db)
      | some cond =>
        if !(canAccessCondominio user cond) then (.err .forbidden, db)
        else
          match tipoB with
          | some t =>
            match parseTipoLancamento t with
            | none => (.err .tipo_invalido, db)
            | some tipoV =>
              patchLancamentosBody parseDec parseDate id (some tipoV) valorB dataB
                categoriaB descricaoB l db
          | none =>
            patchLancamentosBody parseDec parseDate id none valorB dataB
              categoriaB descricaoB l db
where
  /-- Continuation after the tipo field has been validated. -/
  patchLancamentosBody (parseDec : String → Option String)
      (parseDate : String → Option Nat) (id : String)
      (tipoN : Option TipoLancamento) (valorB dataB categoriaB descricaoB : Option String)
      (l : Lancamento) (db : DB) : HResult Lancamento × DB :=
    match valorB with
    | some vraw =>
      match parseDec vraw with
      | none => (.err .valor_invalido, db)
      | some valor =>
        patchLancamentosDate parseDate id tipoN (some valor) dataB categoriaB descricaoB l db
    | none => patchLancamentosDate parseDate id tipoN none dataB categoriaB descricaoB l db
  /-- Continuation after the valor field has been validated. -/
  patchLancamentosDate (parseDate : String → Option Nat) (id : String)
      (tipoN : Option TipoLancamento) (valorN : Option String)
      (dataB categoriaB descricaoB : Option String) (l : Lancamento) (db : DB) :
      HResult Lancamento × DB :=
    match dataB with
    | some draw =>
      match parseDate draw with
      | none => (.err .data_invalida, db)
      | some dataV =>
        patchLancamentosFinish id tipoN valorN (some dataV) categoriaB descricaoB l db
    | none => patchLancamentosFinish id tipoN valorN none categoriaB descricaoB l db
  /-- Final step: reject an empty patch, otherwise update the row. -/
  patchLancamentosFinish (id : String) (tipoN : Option TipoLancamento)
      (valorN : Option String) (dataN : Option Nat)
      (categoriaB descricaoB : Option String) (l : Lancamento) (db : DB) :
      HResult Lancamento × DB :=
    if tipoN == none && valorN == none && dataN == none && categoriaB == none
        && descricaoB == none then
      (.err .nada_para_atualizar, db)
    else
      let item := applyLancamentoPatch l tipoN valorN dataN categoriaB descricaoB
      (.ok item,
       { db with lancamentos := db.lancamentos.map (fun w => if w.id == id then item else w) })

/-- Translation of the DELETE /api/lancamentos/:id handler (index.ts lines
1308-1337). -/
def deleteLancamentos (user : Option AuthUser) (id : String) (db : DB) :
    HResult Unit × DB :=
  if !(isAdminOrOperator user) then (.err .forbidden, db)
  else if id == "" then (.err .id_obrigatorio, db)
  else
    match findLancamento db id with
    | none => (.err .nao_encontrado, db)
    | some l =>
      match findCondominio db l.condominioId with
      | none => (.err .internal_error, db)
      | some cond =>
        if !(canAccessCondominio user cond) then (.err .forbidden, db)
        else (.ok (), { db with lancamentos := db.lancamentos.filter (fun w => !(w.id == id)) })

/-- Patch application for a Condominio row, mirroring the data object the
PATCH /api/condominios/:id handler builds. -/
def applyCondominioPatch (c : Condominio) (nomeB cnpjB enderecoB : Option String) :
    Condominio :=
  { c with
    nome := nomeB.getD c.nome,
    cnpj := match cnpjB with
      | none => c.cnpj
      | some s => if s == "" then none else some s,
    endereco := match enderecoB with
      | none => c.endereco
      | some s => if s == "" then none else some s }

/-- Translation of the PATCH /api/condominios/:id handler (index.ts lines
1339-1395).  Note that the tenant guard is the inline test
user.administradoraId && cond.administradoraId !== user.administradoraId,
not canAccessCondominio: it is skipped entirely when the actor's
administradoraId is falsy. -/
def patchCondominios (user : Option AuthUser) (id : String)
    (nomeB cnpjB enderecoB : Option String) (db : DB) :
    HResult Condominio × DB :=
  match user with
  | none => (.err .unauthorized, db)
  | some u =>
    if !(isAdminOrOperator (some u)) then (.err .forbidden, db)
    else if id == "" then (.err .id_obrigatorio, db)
    else
      match findCondominio db id with
      | none => (.err .nao_encontrado, db)
      | some cond =>
        if truthyOpt u.administradoraId && !(cond.administradoraId == u.administradoraId) then
          (.err .forbidden, db)
        else if nomeB == some "" then (.err .nome_obrigatorio, db)
        else if nomeB == none && cnpjB == none && enderecoB == none then
          (.err .nada_para_atualizar, db)
        else
          let item := applyCondominioPatch cond nomeB cnpjB enderecoB
          (.ok item,
           { db with condominios := db.condominios.map (fun c => if c.id == id then item else c) })

/-- Translation of the DELETE /api/condominios/:id handler (index.ts lines
1397-1423).  The role test is inlined in the source
(user.role !== ADMINISTRADORA && user.role !== OPERADOR, with a missing user
also yielding forbidden); the tenant guard is the same skippable inline test
as in the PATCH handler. -/
def deleteCondominios (user : Option AuthUser) (id : String) (db : DB) :
    HResult Unit × DB :=
  match user with
  | none => (.err .forbidden, db)
  | some u =>
    if !(u.role == Role.ADMINISTRADORA || u.role == Role.OPERADOR) then
      (.err .forbidden, db)
    else if id == "" then (.err .id_obrigatorio, db)
    else
      match findCondominio db id with
      | none => (.err .nao_encontrado, db)
      | some cond =>
        if truthyOpt u.administradoraId && !(cond.administradoraId == u.administradoraId) then
          (.err .forbidden, db)
        else (.ok (), { db with condominios := db.condominios.filter (fun c => !(c.id == id)) })

/-- Lifetime of an email verification token in milliseconds (index.ts line
37): 24 hours. -/
def EMAIL_VERIFY_TTL_MS : Nat := 24 * 60 * 60 * 1000

/-- The prisma findFirst predicate of the verify-email handler: the stored
token hash equals the redeemed token's hash and the stored expiry is strictly
in the future. -/
def verifyTokenMatches (tokenHash : String) (now : Nat) (u : Usuario) : Bool :=
  u.emailVerificationToken == some tokenHash
    && (match u.emailVerificationExpires with
        | some e => decide (now < e)
        | none => false)

/-- The update the verify-email handler applies to the matched user: the
emailVerificado flag is set and both the stored token hash and the stored
expiry are cleared. -/
def clearVerification (u : Usuario) : Usuario :=
  { u with
    emailVerificado := true
    emailVerificationToken := none
    emailVerificationExpires := none }

/-- Translation of the POST /auth/verify-email handler (index.ts lines
208-264).  The sha256 token digest is an opaque collaborator passed as hash;
now is the current epoch time in milliseconds.  On success the matched user
is replaced by its cleared copy; every failure leaves the store untouched. -/
def verifyEmail (hash : String → String) (token : String) (now : Nat)
    (db : DB) : HResult Usuario × DB :=
  if token == "" then (.err .token_invalido, db)
  else
    let tokenHash := hash token
    match db.usuarios.find? (verifyTokenMatches tokenHash now) with
    | none => (.err .token_invalido, db)
    | some u =>
      (.ok (clearVerification u),
       { db with usuarios :=
          db.usuarios.map (fun v => if v.id == u.id then clearVerification u else v) })

/-- An entry of the in-process loginAttempts map (index.ts line 40). -/
structure AttemptEntry where
  count : Nat
  firstAt : Nat
deriving DecidableEq, Repr

/-- The loginAttempts map, modelled as an association list over rate keys. -/
def AttemptMap : Type := List (String × AttemptEntry)

instance : DecidableEq AttemptMap := by
  unfold AttemptMap
  exact inferInstance

/-- Map.get on the loginAttempts map. -/
def attemptsGet (m : AttemptMap) (k : String) : Option AttemptEntry :=
  (m.find? (fun p => p.fst == k)).map Prod.snd

/-- Map.set on the loginAttempts map: overwrite in place or insert. -/
def attemptsSet (m : AttemptMap) (k : String) (v : AttemptEntry) : AttemptMap :=
  if (m.find? (fun p => p.fst == k)).isSome then
    m.map (fun p => if p.fst == k then (k, v) else p)
  else
    (k, v) :: m

/-- Map.delete on the loginAttempts map. -/
def attemptsDelete (m : AttemptMap) (k : String) : AttemptMap :=
  m.filter (fun p => !(p.fst == k))

/-- Translation of isRateLimited (index.ts lines 62-72), with the mutable map
made an explicit input and output.  A missing or stale entry (older than the
window) is replaced by a fresh count of 1 and the call is not limited;
otherwise the count is incremented and the call is limited exactly when the
incremented count exceeds the limit.  Times are epoch milliseconds; the
JavaScript subtraction now - firstAt compared against the window behaves like
truncated Nat subtraction for a nonnegative window. -/
def isRateLimited (m : AttemptMap) (key : String) (limit windowMs now : Nat) :
    Bool × AttemptMap :=
  match attemptsGet m key with
  | none => (false, attemptsSet m key { count := 1, firstAt := now })
  | some cur =>
    if now - cur.firstAt > windowMs then
      (false, attemptsSet m key { count := 1, firstAt := now })
    else
      let c : AttemptEntry := { count := cur.count + 1, firstAt := cur.firstAt }
      (decide (c.count > limit), attemptsSet m key c)

/-- Translation of the POST /auth/login handler (index.ts lines 380-440), up
to the signed token payload.  Password verification is the opaque
collaborator verifyPw; email and senha are the values after string coercion
(trimmed, lower-cased email); ip is the resolved client address.  The rate
limit check runs before the user lookup; a successful login deletes the rate
key. -/
def login (verifyPw : String → String → Bool) (ip email senha : String)
    (now : Nat) (db : DB) (m : AttemptMap) :
    HResult AuthUser × DB × AttemptMap :=
  if email == "" || senha == "" then (.err .credenciais_invalidas, db, m)
  else
    let rateKey := ip ++ ":" ++ email
    let rl := isRateLimited m rateKey 10 (15 * 60 * 1000) now
    if rl.fst then (.err .muitas_tentativas, db, rl.snd)
    else
      match db.usuarios.find? (fun u => u.email == email) with
      | none => (.err .credenciais_invalidas, db, rl.snd)
      | some u =>
        if u.authProvider == AuthProvider.LOCAL && !u.emailVerificado then
          (.err .email_nao_verificado, db, rl.snd)
        else if !(verifyPw senha u.senhaHash) then
          (.err .credenciais_invalidas, db, rl.snd)
        else
          (.ok { id := u.id, role := u.role, administradoraId := u.administradoraId,
                 condominioId := u.condominioId },
           db, attemptsDelete rl.snd rateKey)

/-! Concrete fixtures used by witnesses and counterexamples. -/

/-- An operator actor of tenant A1. -/
def adminA1 : AuthUser :=
  { id := "usr1"
    role := Role.ADMINISTRADORA
    administradoraId := some "A1"
    condominioId := none }

/-- An administrator actor whose administradoraId is null. -/
def nullTenantAdmin : AuthUser :=
  { id := "usr0"
    role := Role.ADMINISTRADORA
    administradoraId := none
    condominioId := none }

/-- An operator actor whose administradoraId is the empty string. -/
def emptyTenantOperator : AuthUser :=
  { id := "usr2"
    role := Role.OPERADOR
    administradoraId := some ""
    condominioId := none }

/-- A board member bound to Condominio C9. -/
def sindicoC9 : AuthUser :=
  { id := "usr3"
    role := Role.SINDICO
    administradoraId := none
    condominioId := some "C9" }

/-- A Condominio owned by tenant A1. -/
def condA1 : Condominio :=
  { id := "C1"
    nome := "Residencial Alfa"
    cnpj := none
    endereco := none
    administradoraId := some "A1" }

/-- A Condominio whose owning administradora id is the empty string. -/
def emptyTenantCondominio : Condominio :=
  { id := "C2"
    nome := "Residencial Beta"
    cnpj := none
    endereco := none
    administradoraId := some "" }

/-- The Condominio the board member fixture is bound to. -/
def condC9 : Condominio :=
  { id := "C9"
    nome := "Residencial Gama"
    cnpj := none
    endereco := none
    administradoraId := some "A1" }

/-- The empty store. -/
def dbEmpty : DB :=
  { usuarios := []
    condominios := []
    unidades := []
    moradores := []
    lancamentos := [] }

/-- Claim C1, counterexample: for an operator whose administradoraId is the
empty string and a Condominio whose administradoraId is also the empty
string, the actor's administradoraId is non-null and equal to the
Condominio's, yet canAccessCondominio returns false, because the JavaScript
truthiness test treats the empty string like null. -/
theorem canAccess_adminRule_empty_string_counterexample :
    (emptyTenantOperator.administradoraId ≠ none ∧
      emptyTenantOperator.administradoraId = emptyTenantCondominio.administradoraId ∧
      (emptyTenantOperator.role = Role.ADMINISTRADORA ∨
        emptyTenantOperator.role = Role.OPERADOR)) ∧
    canAccessCondominio (some emptyTenantOperator) emptyTenantCondominio = false := by
  decide

/-- Claim C1, amended: for an administrator/operator actor A and a
Condominium C, canAccessCondominio returns true iff A.administradoraId is a
non-null, non-empty string and equals C.administradoraId; in particular it
returns false whenever A.administradoraId is null or empty. -/
theorem canAccess_adminRule (u : AuthUser) (c : Condominio)
    (hrole : u.role = Role.ADMINISTRADORA ∨ u.role = Role.OPERADOR) :
    canAccessCondominio (some u) c = true ↔
      ∃ s, u.administradoraId = some s ∧ s ≠ "" ∧ c.administradoraId = some s := by
  have hns : (u.role == Role.SINDICO) = false := by
    rcases hrole with h | h <;> simp [h]
  rcases hadm : u.administradoraId with _ | s
  · simp [canAccessCondominio, hns, truthyOpt, hadm]
  · by_cases hs : s = ""
    · subst hs
      simp [canAccessCondominio, hns, truthyOpt, hadm]
    · simp [canAccessCondominio, hns, truthyOpt, hadm, hs]

/-- Claim C1, witness: the amended rule evaluated at the tenant-A1 operator
and the tenant-A1 Condominio. -/
theorem canAccess_adminRule_witness :
    canAccessCondominio (some adminA1) condA1 = true ↔
      ∃ s, adminA1.administradoraId = some s ∧ s ≠ "" ∧
        condA1.administradoraId = some s :=
  canAccess_adminRule adminA1 condA1 (Or.inl rfl)

/-- Claim C2: for a board-member (SINDICO) actor A and a Condominium C,
canAccessCondominio returns true iff A.condominioId equals C.id, and the
result depends on no field of A or C other than A.condominioId and C.id. -/
theorem canAccess_sindicoRule (u : AuthUser) (c : Condominio)
    (hrole : u.role = Role.SINDICO) :
    (canAccessCondominio (some u) c = true ↔ u.condominioId = some c.id) ∧
    (∀ u2 c2, u2.role = Role.SINDICO → u2.condominioId = u.condominioId →
      c2.id = c.id →
      canAccessCondominio (some u2) c2 = canAccessCondominio (some u) c) := by
  constructor
  · simp [canAccessCondominio, hrole]
  · intro u2 c2 h2 hcid hid
    simp [canAccessCondominio, hrole, h2, hcid, hid]

/-- Claim C2, witness: the SINDICO rule evaluated at the C9 board member and
Condominio C9. -/
theorem canAccess_sindicoRule_witness :
    (canAccessCondominio (some sindicoC9) condC9 = true ↔
      sindicoC9.condominioId = some condC9.id) ∧
    (∀ u2 c2, u2.role = Role.SINDICO → u2.condominioId = sindicoC9.condominioId →
      c2.id = condC9.id →
      canAccessCondominio (some u2) c2 = canAccessCondominio (some sindicoC9) condC9) :=
  canAccess_sindicoRule sindicoC9 condC9 rfl

/-- A SINDICO actor fails the isAdminOrOperator gate. -/
theorem isAdminOrOperator_sindico_false (u : AuthUser)
    (h : u.role = Role.SINDICO) : isAdminOrOperator (some u) = false := by
  simp [isAdminOrOperator, h]

/-- Claim C3: isAdminOrOperator holds iff the actor is present with role
ADMINISTRADORA or OPERADOR, and every mutating endpoint (create, update and
delete of condominios, unidades, moradores and lancamentos) answers forbidden
to a SINDICO actor and leaves the store untouched, whatever the target. -/
theorem sindicoReadOnly :
    (∀ user : Option AuthUser, isAdminOrOperator user = true ↔
      ∃ u, user = some u ∧
        (u.role = Role.ADMINISTRADORA ∨ u.role = Role.OPERADOR)) ∧
    (∀ u : AuthUser, u.role = Role.SINDICO → ∀ db : DB,
      (∀ nome cnpj endereco newId,
        postCondominios (some u) nome cnpj endereco newId db = (.err .forbidden, db)) ∧
      (∀ id nomeB cnpjB enderecoB,
        patchCondominios (some u) id nomeB cnpjB enderecoB db = (.err .forbidden, db)) ∧
      (∀ id, deleteCondominios (some u) id db = (.err .forbidden, db)) ∧
      (∀ condId ident tipo newId,
        postUnidades (some u) condId ident tipo newId db = (.err .forbidden, db)) ∧
      (∀ id identB tipoB,
        patchUnidades (some u) id identB tipoB db = (.err .forbidden, db)) ∧
      (∀ id, deleteUnidades (some u) id db = (.err .forbidden, db)) ∧
      (∀ unidadeId nome documento contato newId,
        postMoradores (some u) unidadeId nome documento contato newId db =
          (.err .forbidden, db)) ∧
      (∀ id nomeB documentoB contatoB,
        patchMoradores (some u) id nomeB documentoB contatoB db = (.err .forbidden, db)) ∧
      (∀ id, deleteMoradores (some u) id db = (.err .forbidden, db)) ∧
      (∀ parseDec parseDate condId tipo valorB dataB categoria descricao newId,
        postLancamentos parseDec parseDate (some u) condId tipo valorB dataB
          categoria descricao newId db = (.err .forbidden, db)) ∧
      (∀ parseDec parseDate id tipoB valorB dataB categoriaB descricaoB,
        patchLancamentos parseDec parseDate (some u) id tipoB valorB dataB
          categoriaB descricaoB db = (.err .forbidden, db)) ∧
      (∀ id, deleteLancamentos (some u) id db = (.err .forbidden, db))) := by
  constructor
  · intro user
    match user with
    | none => simp [isAdminOrOperator]
    | some u =>
      simp only [isAdminOrOperator, Bool.or_eq_true, beq_iff_eq]
      constructor
      · intro h
        exact ⟨u, rfl, h⟩
      · rintro ⟨v, hv, h⟩
        cases hv
        exact h
  · intro u hrole db
    have hf : isAdminOrOperator (some u) = false :=
      isAdminOrOperator_sindico_false u hrole
    refine ⟨?_, ?_, ?_, ?_, ?_, ?_, ?_, ?_, ?_, ?_, ?_, ?_⟩
    · intro nome cnpj endereco newId
      simp [postCondominios, hf]
    · intro id nomeB cnpjB enderecoB
      simp [patchCondominios, hf]
    · intro id
      simp [deleteCondominios, hrole]
    · intro condId ident tipo newId
      simp [postUnidades, hf]
    · intro id identB tipoB
      simp [patchUnidades, hf]
    · intro id
      simp [deleteUnidades, hf]
    · intro unidadeId nome documento contato newId
      simp [postMoradores, hf]
    · intro id nomeB documentoB contatoB
      simp [patchMoradores, hf]
    · intro id
      simp [deleteMoradores, hf]
    · intro parseDec parseDate condId tipo valorB dataB categoria descricao newId
      simp [postLancamentos, hf]
    · intro parseDec parseDate id tipoB valorB dataB categoriaB descricaoB
      simp [patchLancamentos, hf]
    · intro id
      simp [deleteLancamentos, hf]

/-- Claim C3, witness: the characterization at the A1 operator together with
two concrete SINDICO mutations answered with forbidden. -/
theorem sindicoReadOnly_witness :
    (isAdminOrOperator (some adminA1) = true ↔
      ∃ u, some adminA1 = some u ∧
        (u.role = Role.ADMINISTRADORA ∨ u.role = Role.OPERADOR)) ∧
    patchUnidades (some sindicoC9) "u1" none none dbEmpty =
      (.err .forbidden, dbEmpty) ∧
    deleteCondominios (some sindicoC9) "C9" dbEmpty = (.err .forbidden, dbEmpty) :=
  ⟨sindicoReadOnly.1 (some adminA1),
   (sindicoReadOnly.2 sindicoC9 rfl dbEmpty).2.2.2.2.1 "u1" none none,
   (sindicoReadOnly.2 sindicoC9 rfl dbEmpty).2.2.1 "C9"⟩

/-- A store holding exactly the tenant-A1 Condominio. -/
def dbOneCondominio : DB := { dbEmpty with condominios := [condA1] }

/-- Claim C4, divergence: an administrator actor whose administradoraId is
null, patching or deleting an existing Condominium owned by tenant A1, is not
denied: the inline tenant guard of the PATCH and DELETE /api/condominios/:id
handlers is skipped when user.administradoraId is falsy, so the update and
the delete go through and change the store, where the claim (and
canAccessCondominio, which these handlers do not call) requires forbidden
with no change. -/
theorem condominioNullTenantGuardBypass :
    nullTenantAdmin.administradoraId = none ∧
    findCondominio dbOneCondominio "C1" = some condA1 ∧
    canAccessCondominio (some nullTenantAdmin) condA1 = false ∧
    patchCondominios (some nullTenantAdmin) "C1" (some "Novo Nome") none none
        dbOneCondominio ≠ (.err .forbidden, dbOneCondominio) ∧
    deleteCondominios (some nullTenantAdmin) "C1" dbOneCondominio ≠
      (.err .forbidden, dbOneCondominio) ∧
    patchCondominios (some nullTenantAdmin) "C1" (some "Novo Nome") none none
        dbOneCondominio =
      (.ok { condA1 with nome := "Novo Nome" },
       { dbOneCondominio with condominios := [{ condA1 with nome := "Novo Nome" }] }) ∧
    deleteCondominios (some nullTenantAdmin) "C1" dbOneCondominio =
      (.ok (), { dbOneCondominio with condominios := [] }) := by
  decide

/-- An admitted administrator/operator actor passes isAdminOrOperator. -/
theorem isAdminOrOperator_of_role (u : AuthUser)
    (hrole : u.role = Role.ADMINISTRADORA ∨ u.role = Role.OPERADOR) :
    isAdminOrOperator (some u) = true := by
  rcases hrole with h | h <;> simp [isAdminOrOperator, h]

/-- Claim C5: for a condominium-creation request by an admitted
administrator/operator actor, if the actor's stored plan is FREEMIUM and the
actor's tenant (a truthy administradoraId) already owns at least one
Condominio the request is rejected with limite_plano and the store is
unchanged; if the stored plan is any higher tier the plan limiter never
rejects, for any store contents. -/
theorem condominioPlanLimit (u : AuthUser) (dbUser : Usuario) (db : DB)
    (nome : String) (cnpj endereco : Option String) (newId : String)
    (hrole : u.role = Role.ADMINISTRADORA ∨ u.role = Role.OPERADOR)
    (hfind : findUsuario db u.id = some dbUser) :
    (dbUser.plano = Plano.FREEMIUM → truthyOpt dbUser.administradoraId = true →
      condoCountFor db dbUser.administradoraId ≥ 1 → nome ≠ "" →
      postCondominios (some u) nome cnpj endereco newId db =
        (.err .limite_plano, db)) ∧
    (dbUser.plano ≠ Plano.FREEMIUM →
      (postCondominios (some u) nome cnpj endereco newId db).fst ≠
        .err .limite_plano) := by
  have hadm : isAdminOrOperator (some u) = true := isAdminOrOperator_of_role u hrole
  constructor
  · intro hp ht hc hn
    simp [postCondominios, hadm, hfind, hp, ht, hn, hc]
  · intro hnf
    by_cases hn : nome = ""
    · subst hn
      simp [postCondominios, hadm, hfind]
    · simp [postCondominios, hadm, hfind, hn, hnf]

/-- A FREEMIUM administrator user of tenant A1 as stored in the Usuario
table. -/
def usuarioFreemiumA1 : Usuario :=
  { id := "usr1"
    nome := "Ana"
    email := "ana@example.com"
    senhaHash := "hash1"
    role := Role.ADMINISTRADORA
    administradoraId := some "A1"
    condominioId := none
    plano := Plano.FREEMIUM
    authProvider := AuthProvider.LOCAL
    emailVerificado := true
    emailVerificationToken := none
    emailVerificationExpires := none }

/-- A store in which tenant A1 already owns one Condominio and the FREEMIUM
administrator user is registered. -/
def dbPlanLimit : DB :=
  { dbEmpty with usuarios := [usuarioFreemiumA1], condominios := [condA1] }

/-- Claim C5, witness: the FREEMIUM tenant-A1 actor, with one Condominio
already owned, is rejected with limite_plano and the store is unchanged. -/
theorem condominioPlanLimit_witness :
    postCondominios (some adminA1) "Residencial Novo" none none "CN" dbPlanLimit =
      (.err .limite_plano, dbPlanLimit) :=
  (condominioPlanLimit adminA1 usuarioFreemiumA1 dbPlanLimit "Residencial Novo"
      none none "CN" (Or.inl rfl) (by decide)).1 rfl (by decide) (by decide)
    (by decide)

/-- Claim C6: for a unit-creation request by an admitted actor on a stored
FREEMIUM plan, a current count of 15 or more Unidades in the target
Condominio is rejected with limite_plano and the store is unchanged, while a
current count of 14 succeeds; a successful creation leaves the unit count of
every other Condominio untouched (the counter is per Condominio); a stored
plan of any higher tier is never rejected by the limiter. -/
theorem unidadePlanLimit (u : AuthUser) (dbUser : Usuario) (cond : Condominio)
    (db : DB) (condominioId identificador : String) (tipo : Option String)
    (newId : String)
    (hadm : isAdminOrOperator (some u) = true)
    (hcid : condominioId ≠ "")
    (hident : identificador ≠ "")
    (hcond : findCondominio db condominioId = some cond)
    (hacc : canAccessCondominio (some u) cond = true)
    (hfind : findUsuario db u.id = some dbUser) :
    (dbUser.plano = Plano.FREEMIUM → unidadeCountFor db condominioId ≥ 15 →
      postUnidades (some u) condominioId identificador tipo newId db =
        (.err .limite_plano, db)) ∧
    (dbUser.plano = Plano.FREEMIUM → unidadeCountFor db condominioId = 14 →
      postUnidades (some u) condominioId identificador tipo newId db =
        (.ok { id := newId, identificador := identificador, tipo := orNull tipo,
               condominioId := condominioId },
         { db with unidades :=
            { id := newId, identificador := identificador, tipo := orNull tipo,
              condominioId := condominioId } :: db.unidades })) ∧
    (dbUser.plano ≠ Plano.FREEMIUM →
      (postUnidades (some u) condominioId identificador tipo newId db).fst ≠
        .err .limite_plano) ∧
    (dbUser.plano = Plano.FREEMIUM → unidadeCountFor db condominioId = 14 →
      ∀ c2, c2 ≠ condominioId →
        unidadeCountFor
          (postUnidades (some u) condominioId identificador tipo newId db).snd c2 =
          unidadeCountFor db c2) := by
  have hsucc : ∀ (_ : dbUser.plano = Plano.FREEMIUM)
      (_ : unidadeCountFor db condominioId = 14),
      postUnidades (some u) condominioId identificador tipo newId db =
        (.ok { id := newId, identificador := identificador, tipo := orNull tipo,
               condominioId := condominioId },
         { db with unidades :=
            { id := newId, identificador := identificador, tipo := orNull tipo,
              condominioId := condominioId } :: db.unidades }) := by
    intro hp hc
    simp [postUnidades, hadm, hcid, hident, getCondominioOrNull, hcond, hacc,
      hfind, hp, hc]
  refine ⟨?_, hsucc, ?_, ?_⟩
  · intro hp hc
    simp [postUnidades, hadm, hcid, hident, getCondominioOrNull, hcond, hacc,
      hfind, hp, hc]
  · intro hnf
    simp [postUnidades, hadm, hcid, hident, getCondominioOrNull, hcond, hacc,
      hfind, hnf]
  · intro hp hc c2 hne
    rw [hsucc hp hc]
    have hbe : (condominioId == c2) = false := by
      simp
      exact fun h => hne h.symm
    simp [unidadeCountFor, List.filter_cons, hbe]

/-- A Unidade of Condominio C9. -/
def unidadeC9 : Unidade :=
  { id := "u1"
    identificador := "101"
    tipo := none
    condominioId := "C9" }

/-- A store in which Condominio C9 already holds 15 Unidades and the FREEMIUM
administrator user is registered. -/
def dbUnits15 : DB :=
  { dbEmpty with
    usuarios := [usuarioFreemiumA1]
    condominios := [condC9]
    unidades := List.replicate 15 unidadeC9 }

/-- Claim C6, witness: the 16th unit creation in C9 under the FREEMIUM plan
is rejected with limite_plano and the store is unchanged. -/
theorem unidadePlanLimit_witness :
    postUnidades (some adminA1) "C9" "116" none "u16" dbUnits15 =
      (.err .limite_plano, dbUnits15) :=
  (unidadePlanLimit adminA1 usuarioFreemiumA1 condC9 dbUnits15 "C9" "116" none
      "u16" (by decide) (by decide) (by decide) (by decide) (by decide)
      (by decide)).1 rfl (by decide)

/-- Claim C7, counterexample: a board-member actor patching a Unidade id that
does not exist receives forbidden, not nao_encontrado: the role gate of the
mutating handlers runs before the existence lookup, so for actors the role
gate rejects the not-found result is not produced. -/
theorem notFoundOrdering_counterexample :
    findUnidade dbEmpty "u9" = none ∧
    patchUnidades (some sindicoC9) "u9" none none dbEmpty =
      (.err .forbidden, dbEmpty) ∧
    ApiError.forbidden ≠ ApiError.nao_encontrado := by
  decide

/-- Claim C7, amended: for Condominium-scoped operations targeting a resource
by a nonempty id, once the request is past the leading gates (a present actor
for scoped reads; an actor passing the role gate for mutations), a missing
target yields nao_encontrado irrespective of the access guard, and an
existing target with canAccessCondominio denying the actor yields forbidden
with the store unchanged.  Shown for the cited handlers: the unidades list
read, the unidade patch and the lancamento patch. -/
theorem notFoundBeforeAccessGuard (u : AuthUser) (db : DB) :
    (∀ condId, condId ≠ "" → findCondominio db condId = none →
      getUnidades (some u) condId db = (.err .nao_encontrado, db)) ∧
    (∀ condId cond, condId ≠ "" → findCondominio db condId = some cond →
      canAccessCondominio (some u) cond = false →
      getUnidades (some u) condId db = (.err .forbidden, db)) ∧
    (isAdminOrOperator (some u) = true →
      (∀ id identB tipoB, id ≠ "" → findUnidade db id = none →
        patchUnidades (some u) id identB tipoB db = (.err .nao_encontrado, db)) ∧
      (∀ id v cond identB tipoB, id ≠ "" → findUnidade db id = some v →
        findCondominio db v.condominioId = some cond →
        canAccessCondominio (some u) cond = false →
        patchUnidades (some u) id identB tipoB db = (.err .forbidden, db)) ∧
      (∀ parseDec parseDate id tipoB valorB dataB categoriaB descricaoB,
        id ≠ "" → findLancamento db id = none →
        patchLancamentos parseDec parseDate (some u) id tipoB valorB dataB
          categoriaB descricaoB db = (.err .nao_encontrado, db)) ∧
      (∀ parseDec parseDate id l cond tipoB valorB dataB categoriaB descricaoB,
        id ≠ "" → findLancamento db id = some l →
        findCondominio db l.condominioId = some cond →
        canAccessCondominio (some u) cond = false →
        patchLancamentos parseDec parseDate (some u) id tipoB valorB dataB
          categoriaB descricaoB db = (.err .forbidden, db))) := by
  refine ⟨?_, ?_, fun hadm => ⟨?_, ?_, ?_, ?_⟩⟩
  · intro condId hcid hmiss
    simp [getUnidades, hcid, getCondominioOrNull, hmiss]
  · intro condId cond hcid hcond hdeny
    simp [getUnidades, hcid, getCondominioOrNull, hcond, hdeny]
  · intro id identB tipoB hid hmiss
    simp [patchUnidades, hadm, hid, hmiss]
  · intro id v cond identB tipoB hid hv hcond hdeny
    simp [patchUnidades, hadm, hid, hv, hcond, hdeny]
  · intro parseDec parseDate id tipoB valorB dataB categoriaB descricaoB hid hmiss
    simp [patchLancamentos, hadm, hid, hmiss]
  · intro parseDec parseDate id l cond tipoB valorB dataB categoriaB descricaoB
      hid hl hcond hdeny
    simp [patchLancamentos, hadm, hid, hl, hcond, hdeny]

/-- Claim C7, witness: in the one-Condominio store, a present actor reading
the units of a missing Condominio gets nao_encontrado, a board member bound
elsewhere reading an existing Condominio gets forbidden, and an admitted
actor patching a missing Unidade gets nao_encontrado. -/
theorem notFoundBeforeAccessGuard_witness :
    getUnidades (some adminA1) "CX" dbOneCondominio =
      (.err .nao_encontrado, dbOneCondominio) ∧
    getUnidades (some sindicoC9) "C1" dbOneCondominio =
      (.err .forbidden, dbOneCondominio) ∧
    patchUnidades (some adminA1) "u9" none none dbOneCondominio =
      (.err .nao_encontrado, dbOneCondominio) :=
  ⟨(notFoundBeforeAccessGuard adminA1 dbOneCondominio).1 "CX" (by decide)
      (by decide),
   (notFoundBeforeAccessGuard sindicoC9 dbOneCondominio).2.1 "C1" condA1
      (by decide) (by decide) (by decide),
   ((notFoundBeforeAccessGuard adminA1 dbOneCondominio).2.2 (by decide)).1 "u9"
      none none (by decide) (by decide)⟩

/-- A redemption attempt over a store whose user list matches nowhere fails
with token_invalido and leaves the store untouched. -/
theorem verifyEmail_err_of_none (hash : String → String) (token : String)
    (now : Nat) (db : DB) (htok : token ≠ "")
    (hnone : db.usuarios.find? (verifyTokenMatches (hash token) now) = none) :
    verifyEmail hash token now db = (.err .token_invalido, db) := by
  simp [verifyEmail, htok, hnone]

/-- A user the verify-email predicate accepts stores exactly the redeemed
token's hash. -/
theorem verifyTokenMatches_token (h : String) (n : Nat) (v : Usuario)
    (hm : verifyTokenMatches h n v = true) :
    v.emailVerificationToken = some h := by
  unfold verifyTokenMatches at hm
  rw [Bool.and_eq_true] at hm
  exact beq_iff_eq.mp hm.1

/-- A user the verify-email predicate accepts has an expiry strictly in the
future. -/
theorem verifyTokenMatches_fresh (h : String) (n : Nat) (v : Usuario) (e : Nat)
    (hm : verifyTokenMatches h n v = true)
    (he : v.emailVerificationExpires = some e) : n < e := by
  unfold verifyTokenMatches at hm
  rw [Bool.and_eq_true, he] at hm
  simpa using hm.2

/-- Claim C8: email verification tokens are single-use and time-boxed to 24
hours.  If the store holds the redeemed token's hash only on the matched user
then the first redemption succeeds, replacing that user by a copy with the
emailVerificado flag set and the stored hash and expiry cleared, and a second
redemption of the same token fails with token_invalido and leaves the store
unchanged.  If every holder of the token's hash carries the 24-hour expiry of
its issue time and that window has elapsed, redemption fails with
token_invalido and the store is unchanged. -/
theorem verifyEmailTokenLifecycle (hash : String → String) (token : String)
    (db : DB) :
    (∀ now now2 u, token ≠ "" →
      db.usuarios.find? (verifyTokenMatches (hash token) now) = some u →
      (∀ v ∈ db.usuarios, v.emailVerificationToken = some (hash token) →
        v.id = u.id) →
      (verifyEmail hash token now db).fst = .ok (clearVerification u) ∧
      (verifyEmail hash token now db).snd =
        { db with usuarios :=
            db.usuarios.map (fun v => if v.id == u.id then clearVerification u else v) } ∧
      verifyEmail hash token now2 (verifyEmail hash token now db).snd =
        (.err .token_invalido, (verifyEmail hash token now db).snd)) ∧
    (∀ now issuedAt, issuedAt + EMAIL_VERIFY_TTL_MS ≤ now →
      (∀ v ∈ db.usuarios, v.emailVerificationToken = some (hash token) →
        v.emailVerificationExpires = some (issuedAt + EMAIL_VERIFY_TTL_MS)) →
      verifyEmail hash token now db = (.err .token_invalido, db)) := by
  constructor
  · intro now now2 u htok hfind huniq
    have h1 : verifyEmail hash token now db =
        (.ok (clearVerification u),
         { db with usuarios :=
            db.usuarios.map (fun v => if v.id == u.id then clearVerification u else v) }) := by
      simp [verifyEmail, htok, hfind]
    refine ⟨by rw [h1], by rw [h1], ?_⟩
    rw [h1]
    have hnone :
        (db.usuarios.map
            (fun v => if v.id == u.id then clearVerification u else v)).find?
          (verifyTokenMatches (hash token) now2) = none := by
      rw [List.find?_eq_none]
      intro v2 hv2
      rw [List.mem_map] at hv2
      obtain ⟨v, hv, hveq⟩ := hv2
      by_cases hid : (v.id == u.id) = true
      · rw [hid, if_pos rfl] at hveq
        subst hveq
        simp [verifyTokenMatches, clearVerification]
      · rw [Bool.not_eq_true] at hid
        rw [hid] at hveq
        simp only [Bool.false_eq_true, if_false] at hveq
        subst hveq
        intro hpred
        have htokv := verifyTokenMatches_token _ _ _ hpred
        have := huniq v hv htokv
        rw [this] at hid
        simp at hid
    exact verifyEmail_err_of_none hash token now2 _ htok hnone
  · intro now issuedAt hle hall
    by_cases htok : token = ""
    · simp [verifyEmail, htok]
    · have hnone :
          db.usuarios.find? (verifyTokenMatches (hash token) now) = none := by
        rw [List.find?_eq_none]
        intro v hv hpred
        have htokv := verifyTokenMatches_token _ _ _ hpred
        have hexp := hall v hv htokv
        have := verifyTokenMatches_fresh _ _ _ _ hpred hexp
        omega
      exact verifyEmail_err_of_none hash token now db htok hnone

/-- A local-credential user holding an unexpired verification token issued at
time 0. -/
def usuarioUnverified : Usuario :=
  { usuarioFreemiumA1 with
    id := "usr9"
    email := "bob@example.com"
    emailVerificado := false
    emailVerificationToken := some "tok123"
    emailVerificationExpires := some EMAIL_VERIFY_TTL_MS }

/-- A store holding only the unverified user. -/
def dbVerify : DB := { dbEmpty with usuarios := [usuarioUnverified] }

/-- Claim C8, witness: with the token digest modelled as the identity, the
first redemption of tok123 succeeds and its replay fails with token_invalido
and no state change, and a redemption exactly at the end of the 24-hour
window fails with token_invalido and no state change. -/
theorem verifyEmailTokenLifecycle_witness :
    ((verifyEmail (fun s => s) "tok123" 0 dbVerify).fst =
        .ok (clearVerification usuarioUnverified) ∧
      (verifyEmail (fun s => s) "tok123" 0 dbVerify).snd =
        { dbVerify with usuarios := dbVerify.usuarios.map (fun v =>
            if v.id == usuarioUnverified.id then clearVerification usuarioUnverified
            else v) } ∧
      verifyEmail (fun s => s) "tok123" 100
          (verifyEmail (fun s => s) "tok123" 0 dbVerify).snd =
        (.err .token_invalido, (verifyEmail (fun s => s) "tok123" 0 dbVerify).snd)) ∧
    verifyEmail (fun s => s) "tok123" EMAIL_VERIFY_TTL_MS dbVerify =
      (.err .token_invalido, dbVerify) :=
  ⟨(verifyEmailTokenLifecycle (fun s => s) "tok123" dbVerify).1 0 100
      usuarioUnverified (by decide) (by decide) (by decide),
   (verifyEmailTokenLifecycle (fun s => s) "tok123" dbVerify).2
      EMAIL_VERIFY_TTL_MS 0 (by decide) (by decide)⟩

/-- A call of isRateLimited with an existing entry inside the window whose
count has already reached the limit is limited. -/
theorem isRateLimited_hit (m : AttemptMap) (key : String)
    (limit windowMs now : Nat) (cur : AttemptEntry)
    (hget : attemptsGet m key = some cur)
    (hwin : now - cur.firstAt ≤ windowMs)
    (hcnt : cur.count ≥ limit) :
    (isRateLimited m key limit windowMs now).fst = true := by
  unfold isRateLimited
  rw [hget]
  dsimp only
  rw [if_neg (by omega)]
  simp
  omega

/-- The login handler answers muitas_tentativas exactly when both credentials
fields are nonempty and the rate limiter fires on the (client, email) key;
the store plays no part in the condition. -/
theorem login_muitas_iff (verifyPw : String → String → Bool)
    (ip email senha : String) (now : Nat) (db : DB) (m : AttemptMap) :
    (login verifyPw ip email senha now db m).fst = .err .muitas_tentativas ↔
      email ≠ "" ∧ senha ≠ "" ∧
        (isRateLimited m (ip ++ ":" ++ email) 10 (15 * 60 * 1000) now).fst = true := by
  by_cases he : email = ""
  · simp [login, he]
  · by_cases hs : senha = ""
    · simp [login, he, hs]
    · rcases hrl : isRateLimited m (ip ++ ":" ++ email) 10 (15 * 60 * 1000) now
        with ⟨b, m2⟩
      cases b
      · simp only [login, he, hs, hrl]
        simp [he, hs]
        cases hfind : db.usuarios.find? (fun v => v.email == email) with
        | none => simp [hfind]
        | some u =>
          simp only [hfind]
          split_ifs <;> simp
      · simp [login, he, hs, hrl]

/-- When the limiter fires, the login handler returns muitas_tentativas and
its resulting attempts map is the limiter's, independent of the store. -/
theorem login_limited_shape (verifyPw : String → String → Bool)
    (ip email senha : String) (now : Nat) (db : DB) (m : AttemptMap)
    (he : email ≠ "") (hs : senha ≠ "")
    (hlim : (isRateLimited m (ip ++ ":" ++ email) 10 (15 * 60 * 1000) now).fst = true) :
    (login verifyPw ip email senha now db m).fst = .err .muitas_tentativas ∧
    (login verifyPw ip email senha now db m).snd.snd =
      (isRateLimited m (ip ++ ":" ++ email) 10 (15 * 60 * 1000) now).snd := by
  rcases hrl : isRateLimited m (ip ++ ":" ++ email) 10 (15 * 60 * 1000) now
    with ⟨b, m2⟩
  rw [hrl] at hlim
  simp at hlim
  subst hlim
  simp [login, he, hs, hrl]

/-- Claim C9: login rate limiting is a fixed-window counter keyed by the
(client-address, email) pair.  An entry inside the 15-minute window whose
attempt count has already reached the threshold (10) makes the next call
limited; under that condition POST /auth/login answers muitas_tentativas; and
the rate-limited outcome is computed before the user lookup, so two runs over
stores differing only in the user table agree on whether the outcome is
muitas_tentativas and, when it is, leave identical attempts maps. -/
theorem loginRateLimit :
    (∀ (m : AttemptMap) (key : String) (limit windowMs now : Nat)
      (cur : AttemptEntry),
      attemptsGet m key = some cur → now - cur.firstAt ≤ windowMs →
      cur.count ≥ limit →
      (isRateLimited m key limit windowMs now).fst = true) ∧
    (∀ (verifyPw : String → String → Bool) (ip email senha : String) (now : Nat)
      (db : DB) (m : AttemptMap) (cur : AttemptEntry),
      email ≠ "" → senha ≠ "" →
      attemptsGet m (ip ++ ":" ++ email) = some cur →
      now - cur.firstAt ≤ 15 * 60 * 1000 → cur.count ≥ 10 →
      (login verifyPw ip email senha now db m).fst = .err .muitas_tentativas) ∧
    (∀ (verifyPw : String → String → Bool) (ip email senha : String) (now : Nat)
      (db1 db2 : DB) (m : AttemptMap),
      ((login verifyPw ip email senha now db1 m).fst = .err .muitas_tentativas ↔
        (login verifyPw ip email senha now db2 m).fst = .err .muitas_tentativas) ∧
      ((login verifyPw ip email senha now db1 m).fst = .err .muitas_tentativas →
        (login verifyPw ip email senha now db1 m).snd.snd =
          (login verifyPw ip email senha now db2 m).snd.snd)) := by
  refine ⟨isRateLimited_hit, ?_, ?_⟩
  · intro verifyPw ip email senha now db m cur he hs hget hwin hcnt
    exact (login_muitas_iff verifyPw ip email senha now db m).mpr
      ⟨he, hs, isRateLimited_hit m (ip ++ ":" ++ email) 10 (15 * 60 * 1000) now
        cur hget hwin hcnt⟩
  · intro verifyPw ip email senha now db1 db2 m
    constructor
    · rw [login_muitas_iff, login_muitas_iff]
    · intro h
      obtain ⟨he, hs, hlim⟩ := (login_muitas_iff verifyPw ip email senha now db1 m).mp h
      exact (login_limited_shape verifyPw ip email senha now db1 m he hs hlim).2.trans
        (login_limited_shape verifyPw ip email senha now db2 m he hs hlim).2.symm

/-- An attempts map in which the key 1.2.3.4:ana@example.com has already seen
10 attempts in the current window. -/
def attemptsAtLimit : AttemptMap :=
  [("1.2.3.4:ana@example.com", { count := 10, firstAt := 0 })]

/-- Claim C9, witness: the 11th attempt for the saturated key is answered
with muitas_tentativas even over the empty store (no such user exists). -/
theorem loginRateLimit_witness :
    (login (fun _ _ => true) "1.2.3.4" "ana@example.com" "password1" 0 dbEmpty
        attemptsAtLimit).fst = .err .muitas_tentativas :=
  loginRateLimit.2.1 (fun _ _ => true) "1.2.3.4" "ana@example.com" "password1" 0
    dbEmpty attemptsAtLimit { count := 10, firstAt := 0 } (by decide) (by decide)
    (by decide) (by decide) (by decide)

/-- Claim C10: a FREEMIUM administrator/operator actor whose administradoraId
is null (in the JWT and in the stored user row) is never subjected to the
condominium plan gate: for any store contents, POST /api/condominios with a
nonempty name succeeds and prepends a Condominio whose owning administradoraId
is null. -/
theorem nullTenantSkipsPlanLimit (u : AuthUser) (dbUser : Usuario) (db : DB)
    (nome : String) (cnpj endereco : Option String) (newId : String)
    (hrole : u.role = Role.ADMINISTRADORA ∨ u.role = Role.OPERADOR)
    (hnome : nome ≠ "")
    (hfind : findUsuario db u.id = some dbUser)
    (hplan : dbUser.plano = Plano.FREEMIUM)
    (hdbadm : dbUser.administradoraId = none)
    (hjadm : u.administradoraId = none) :
    postCondominios (some u) nome cnpj endereco newId db =
      (.ok { id := newId, nome := nome, cnpj := orNull cnpj,
             endereco := orNull endereco, administradoraId := none },
       { db with condominios :=
          { id := newId, nome := nome, cnpj := orNull cnpj,
            endereco := orNull endereco, administradoraId := none } :: db.condominios }) := by
  have hadm : isAdminOrOperator (some u) = true := isAdminOrOperator_of_role u hrole
  simp [postCondominios, hadm, hnome, hfind, hplan, hdbadm, hjadm, truthyOpt,
    orNull]

/-- The FREEMIUM user row behind the null-tenant administrator fixture. -/
def usuarioFreemiumNull : Usuario :=
  { usuarioFreemiumA1 with id := "usr0", administradoraId := none }

/-- A store with three existing Condominios and the null-tenant FREEMIUM
user registered. -/
def dbManyCondominios : DB :=
  { dbEmpty with
    usuarios := [usuarioFreemiumNull]
    condominios := [condA1, condC9, emptyTenantCondominio] }

/-- Claim C10, witness: over a store already holding three Condominios, the
null-tenant FREEMIUM administrator creates a fourth, ownerless one. -/
theorem nullTenantSkipsPlanLimit_witness :
    postCondominios (some nullTenantAdmin) "Residencial Delta" none none "CN"
        dbManyCondominios =
      (.ok { id := "CN", nome := "Residencial Delta", cnpj := none,
             endereco := none, administradoraId := none },
       { dbManyCondominios with condominios :=
          { id := "CN", nome := "Residencial Delta", cnpj := none,
            endereco := none,
            administradoraId := none } :: dbManyCondominios.condominios }) :=
  nullTenantSkipsPlanLimit nullTenantAdmin usuarioFreemiumNull dbManyCondominios
    "Residencial Delta" none none "CN" (Or.inl rfl) (by decide) (by decide) rfl
    rfl rfl

end ADMG
